import Mathlib

/-!
Verification development for the `dsaa_agents_streamlit` repository.

The embedding below translates the parts of the source that the verified
properties are about:

* `diagrams.py` — the template store (`ARCH_BLOCKS`, `AGENT_DIAGRAM`,
  `DS_BLOCKS`, `COMPLETE_DIAGRAM`), the preset table (`PRESETS`) and the
  three assembly functions (`build_architecture_diagram`,
  `build_agent_diagram`, `build_ds_diagram`);
* `utils/api.py` — the `DiagramFilters` request model and the filter
  resolution / dispatch of the `generate_diagram` endpoint;
* `utils/database.py` — the `DiagramRepository` CRUD operations over the
  `custom_diagrams` table, with the table modelled as an in-memory list of
  rows plus the autoincrement counter;
* `app.py` — the preset application and checkbox mutation of the
  session-state filter dictionary.

Python dictionaries with string keys are modelled as association lists
(`List (String × Bool)`); `dict.get(key, default)` becomes a lookup with a
default, and key assignment becomes an in-place overwrite (or append for a
fresh key).
-/

namespace DsaaAgents

/-- Embedding of `filters.get(tag, False)` (diagrams.py uses this default in
all three builders): look the tag up in the dictionary and fall back to
`false` when the key is absent. -/
def fget (filters : List (String × Bool)) (tag : String) : Bool :=
  (filters.lookup tag).getD false

/-- Embedding of the `ARCH_BLOCKS` dictionary of diagrams.py (lines 6-77):
one Mermaid fragment per component tag.  The dictionary holds exactly the
nine listed keys; the catch-all branch is never reached by the builder,
which only indexes with keys of `block_order`. -/
def ARCH_BLOCKS : String → String
  | "api" => r#"
subgraph API["API / UI Layer (Request Surface)"]
  UI[Web UI / Chat UI]
  API1[FastAPI / Gateway]
  UI --> API1
end
"#
  | "orchestrator" => r#"
subgraph ORCH["Orchestrator (Control Plane)"]
  ROUTER[Router / Policy]
  STATE[State Store]
  ROUTER <--> STATE
end
"#
  | "agents" => r#"
subgraph AG["Agents (Intent + Reasoning)"]
  PLAN[Planner Agent]
  SPEC["Specialized Agents<br/>(Policy, DS, Ops, Risk)"]
  VALID[Validator / Critic]
  PLAN --> SPEC
  SPEC --> VALID
end
"#
  | "retrieval" => r#"
subgraph RAG["Retrieval (RAG Data Plane)"]
  EMB[Embed Query]
  VEC[Vector Search]
  CHUNK[Top-K Chunks]
  AUG[Prompt Augmentation]
  EMB --> VEC --> CHUNK --> AUG
end
"#
  | "tools" => r#"
subgraph TOOLS["Tools / Actions (Execution)"]
  DBT["DB Tool<br/>(SQL/NoSQL/Warehouse)"]
  FILE["Doc Tool<br/>(PDF/DOC/HTML)"]
  WEB[Web Search Tool]
  ACT["Action Tool<br/>(API calls / tickets / emails)"]
end
"#
  | "data" => r#"
subgraph DATA["Data Stores"]
  VDB[(Vector DB)]
  POL[(Policy Docs)]
  DWH[(Warehouse / Lake)]
  LOGS[(Logs / Traces)]
end
"#
  | "governance" => r#"
subgraph GOV["Governance (Safety Rails)"]
  AUTH[AuthN/AuthZ]
  PII[PII / Secrets Filter]
  INJ[Prompt Injection Guard]
  PROV[Provenance / Citation Policy]
end
"#
  | "obs" => r#"
subgraph OBS["Observability"]
  MET[Metrics]
  TRC[Traces]
  EVAL[Offline Eval / Regression Tests]
end
"#
  | "ds" => r#"
subgraph DSX["DS Project Workflows (as a workload)"]
  DSREQ[Project Brief / Hypothesis]
  DSPIP["EDA, Features, Model, Eval"]
  DSPKG["Packaging<br/>(Batch/Realtime)"]
end
"#
  | _ => ""

/-- Embedding of the `AGENT_DIAGRAM` constant of diagrams.py (lines 80-92). -/
def AGENT_DIAGRAM : String := r#"stateDiagram-v2
  [*] --> Plan : goal
  Plan --> Retrieve : step / query
  Retrieve --> Ground : chunks
  Ground --> Reason : augmented prompt
  Reason --> Validate : draft answer
  Validate --> Decide : OK
  Validate --> Fallback : insufficient / conflict
  Fallback --> Retrieve : retry / tier-switch
  Decide --> Act : tool call / report
  Act --> Log : telemetry
  Log --> [*]
"#

/-- Embedding of the `DS_BLOCKS` dictionary of diagrams.py (lines 95-143),
holding the main DS pipeline text and the governance overlay text. -/
def DS_BLOCKS : String → String
  | "main" => r#"flowchart TB
  subgraph DS["Data Science Project Depth (Agentized)"]
    BRIEF["Project Brief Agent<br/>(scope, KPI, constraints)"]
    DATAAUD["Data QA Agent<br/>(nulls, drift, leakage checks)"]
    EDA["EDA Agent<br/>profiles, segments, anomalies"]
    FEAT["Feature Agent<br/>transforms, selection, leakage guard"]
    TRAIN["Training Agent<br/>CV, tuning, baselines"]
    EVAL["Evaluation Agent<br/>metrics, stability, fairness"]
    PKG["Packaging Agent<br/>batch/realtime, schema contracts"]
    DEP["Deployment Agent<br/>CI/CD, infra, rollout"]
    MON["Monitoring Agent<br/>drift, quality, alarms"]
    BRIEF --> DATAAUD --> EDA --> FEAT --> TRAIN --> EVAL --> PKG --> DEP --> MON
  end

  subgraph RAGX["RAG Grounding (Reusable)"]
    RET[Retriever]
    KB[(Domain KB / Policy / Docs)]
    RET <--> KB
  end

  subgraph TOOLX["Tools (Reusable)"]
    SQL[SQL Tool]
    PY[Python Tool]
    FS[File Tool]
    VIZ[Viz Tool]
  end

  BRIEF --> RET
  DATAAUD --> SQL
  EDA --> PY
  FEAT --> PY
  TRAIN --> PY
  EVAL --> VIZ
  PKG --> FS
  DEP --> FS
  MON --> SQL
"#
  | "governance_overlay" => r#"
  subgraph GOV["Governance Overlay (applies to ALL agents)"]
    SCHEMA["Schema contracts<br/>(Pydantic / JSON schema)"]
    PII2[PII masking]
    AUDIT[Audit logs]
  end
  BRIEF -.-> GOV
  EVAL -.-> GOV
  PKG -.-> GOV
"#
  | _ => ""

/-- Embedding of the `COMPLETE_DIAGRAM` constant of diagrams.py
(lines 146-272): the verbatim, manually authored maximal diagram. -/
def COMPLETE_DIAGRAM : String := r#"flowchart LR

%% =======================
%% API / UI LAYER
%% =======================
subgraph API["API / UI Layer (Request Surface)"]
  UI[Web UI / Chat UI]
  API1[FastAPI / Gateway]
  UI --> API1
end

%% =======================
%% ORCHESTRATOR
%% =======================
subgraph ORCH["Orchestrator (Control Plane)"]
  ROUTER[Router / Policy Engine]
  STATE[State Store]
  ROUTER <--> STATE
end

%% =======================
%% AGENTS
%% =======================
subgraph AG["Agents (Intent + Reasoning)"]
  PLAN[Planner Agent]
  SPEC["Specialized Agents<br/>(Policy, DS, Ops, Risk)"]
  VALID[Validator / Critic]
  PLAN --> SPEC --> VALID
end

%% =======================
%% RAG DATA PLANE
%% =======================
subgraph RAG["Retrieval (RAG Data Plane)"]
  EMB[Embed Query]
  VEC[Vector Search]
  CHUNK[Top-K Chunks]
  AUG[Prompt Augmentation]
  EMB --> VEC --> CHUNK --> AUG
end

%% =======================
%% TOOLS / ACTIONS
%% =======================
subgraph TOOLS["Tools / Actions (Execution)"]
  DBT["DB Tool<br/>(SQL / NoSQL / Warehouse)"]
  FILE["Doc Tool<br/>(PDF / DOC / HTML)"]
  WEB[Web Search Tool]
  ACT["Actions<br/>(APIs, Tickets, Emails)"]
end

%% =======================
%% DATA STORES
%% =======================
subgraph DATA["Data Stores"]
  VDB[(Vector DB)]
  POL[(Policy Docs)]
  DWH[(Warehouse / Lake)]
  LOGS[(Logs / Traces)]
end

%% =======================
%% GOVERNANCE
%% =======================
subgraph GOV["Governance (Safety Rails)"]
  AUTH[AuthN / AuthZ]
  PII[PII & Secrets Filter]
  INJ[Prompt Injection Guard]
  PROV[Provenance / Citation Policy]
end

%% =======================
%% OBSERVABILITY
%% =======================
subgraph OBS["Observability"]
  MET[Metrics]
  TRC[Traces]
  EVAL[Offline Eval / Regression Tests]
end

%% =======================
%% DS WORKLOAD
%% =======================
subgraph DSX["Data Science Project (Workload)"]
  DSREQ[Problem Statement / Hypothesis]
  DSPIP["EDA, Features, Model, Eval"]
  DSPKG["Packaging<br/>(Batch / Realtime)"]
end

%% =======================
%% CROSS-LINKS
%% =======================
API1 --> ROUTER
ROUTER --> PLAN
VALID --> ROUTER

SPEC --> EMB
AUG --> SPEC

VEC <--> VDB
CHUNK --> POL

SPEC --> DBT
SPEC --> FILE
SPEC --> WEB
VALID --> ACT

DBT <--> DWH
FILE <--> POL
ACT --> DWH

API1 --> MET
ROUTER --> TRC
VALID --> TRC
ACT --> TRC
TRC --> LOGS

API1 --> AUTH
SPEC --> PII
SPEC --> INJ
VALID --> PROV

PLAN --> DSREQ
DSREQ --> DSPIP
DSPIP --> DSPKG
DSPKG --> ACT
"#

/-- Embedding of the `PRESETS` dictionary of diagrams.py (lines 275-331):
the five named filter presets. -/
def PRESETS : List (String × List (String × Bool)) :=
  [("all_on",
     [("api", true), ("orchestrator", true), ("agents", true),
      ("retrieval", true), ("tools", true), ("data", true),
      ("governance", true), ("obs", true), ("ds", true)]),
   ("all_off",
     [("api", false), ("orchestrator", false), ("agents", false),
      ("retrieval", false), ("tools", false), ("data", false),
      ("governance", false), ("obs", false), ("ds", false)]),
   ("rag_agents",
     [("api", true), ("orchestrator", true), ("agents", true),
      ("retrieval", true), ("tools", true), ("data", true),
      ("governance", true), ("obs", true), ("ds", false)]),
   ("ds_pipeline",
     [("api", false), ("orchestrator", false), ("agents", true),
      ("retrieval", true), ("tools", true), ("data", true),
      ("governance", true), ("obs", true), ("ds", true)]),
   ("governance",
     [("api", true), ("orchestrator", true), ("agents", true),
      ("retrieval", true), ("tools", true), ("data", true),
      ("governance", true), ("obs", true), ("ds", false)])]

/-- The initial value of the `diagram` variable in
`build_architecture_diagram` (diagrams.py line 344). -/
def arch_header : String := "flowchart LR\n%% === Agentic RAG Platform: Separation of Concerns ===\n"

/-- The fixed comment appended before the cross-link section
(diagrams.py line 354). -/
def cross_links_header : String := "\n%% Cross-links (only show if both ends enabled)\n"

/-- The `block_order` list of `build_architecture_diagram`
(diagrams.py line 347). -/
def block_order : List String :=
  ["api", "orchestrator", "agents", "retrieval", "tools", "data", "governance", "obs", "ds"]

/-- The fragment-selection loop of `build_architecture_diagram`
(diagrams.py lines 349-351): walk `block_order` and append the block of
each enabled tag to the accumulated text. -/
def arch_fragments (filters : List (String × Bool)) : String :=
  block_order.foldl (fun d tag => if fget filters tag then d ++ ARCH_BLOCKS tag else d) ""

/-- The cross-link section of `build_architecture_diagram`
(diagrams.py lines 356-411), translated conditional by conditional.  The
observability and governance groups first collect their inner links in a
list and then emit the list joined by newlines plus a trailing newline,
or nothing when the list is empty, exactly as the Python
`"\n".join(xs) + "\n" if xs else ""` does. -/
def arch_cross_links (filters : List (String × Bool)) : String :=
  let has := fun tag => fget filters tag
  (if has "api" && has "orchestrator" then "API1 --> ROUTER\n" else "")
  ++ (if has "orchestrator" && has "agents" then "ROUTER --> PLAN\nVALID --> ROUTER\n" else "")
  ++ (if has "agents" && has "retrieval" then "SPEC --> EMB\nAUG --> SPEC\n" else "")
  ++ (if has "retrieval" && has "data" then "VEC <--> VDB\nCHUNK --> POL\n" else "")
  ++ (if has "tools" && has "agents" then "SPEC --> DBT\nSPEC --> FILE\nSPEC --> WEB\nVALID --> ACT\n" else "")
  ++ (if has "tools" && has "data" then "DBT <--> DWH\nFILE <--> POL\nWEB --> POL\nACT --> DWH\n" else "")
  ++ (if has "obs" then
        let obs_links :=
          (if has "api" then ["API1 --> MET"] else [])
          ++ (if has "orchestrator" then ["ROUTER --> TRC"] else [])
          ++ (if has "agents" then ["VALID --> TRC"] else [])
          ++ (if has "tools" then ["ACT --> TRC"] else [])
          ++ (if has "data" then ["TRC --> LOGS"] else [])
        if obs_links.isEmpty then "" else String.intercalate "\n" obs_links ++ "\n"
      else "")
  ++ (if has "governance" then
        let gov_links :=
          (if has "api" then ["API1 --> AUTH"] else [])
          ++ (if has "agents" then ["SPEC --> PII", "SPEC --> INJ", "VALID --> PROV"] else [])
        if gov_links.isEmpty then "" else String.intercalate "\n" gov_links ++ "\n"
      else "")
  ++ (if has "ds" && has "agents" then "PLAN --> DSREQ\nDSPIP --> SPEC\nDSPKG --> ACT\n" else "")

/-- Embedding of `build_architecture_diagram` (diagrams.py lines 334-413):
header, then the enabled fragments in `block_order`, then the cross-link
comment, then the conditional cross-link lines. -/
def build_architecture_diagram (filters : List (String × Bool)) : String :=
  arch_header ++ arch_fragments filters ++ cross_links_header ++ arch_cross_links filters

/-- The placeholder returned by `build_agent_diagram` when `agents` is
disabled (diagrams.py line 429). -/
def agent_placeholder : String := "flowchart TB\nA[Enable \x27Agents\x27 to view the Agent Graph]"

/-- Embedding of `build_agent_diagram` (diagrams.py lines 416-429). -/
def build_agent_diagram (filters : List (String × Bool)) : String :=
  if fget filters "agents" then AGENT_DIAGRAM else agent_placeholder

/-- The placeholder returned by `build_ds_diagram` when `ds` is disabled
(diagrams.py line 448). -/
def ds_placeholder : String := "flowchart TB\nA[Enable \x27DS Project Depth\x27 to view the DS pipeline]"

/-- Embedding of `build_ds_diagram` (diagrams.py lines 432-448). -/
def build_ds_diagram (filters : List (String × Bool)) : String :=
  if fget filters "ds" then
    let diagram := DS_BLOCKS "main"
    if fget filters "governance" then diagram ++ "\n" ++ DS_BLOCKS "governance_overlay" else diagram
  else ds_placeholder

/-! ### utils/api.py -/

/-- Embedding of the pydantic `DiagramFilters` request model
(utils/api.py lines 44-53).  Every field carries the pydantic default
`True`, so a request body that omits a field gets `true` for it; the
default is recorded in `DiagramFilters.default` below. -/
structure DiagramFilters where
  api : Bool
  orchestrator : Bool
  agents : Bool
  retrieval : Bool
  tools : Bool
  data : Bool
  governance : Bool
  obs : Bool
  ds : Bool
deriving DecidableEq

/-- The pydantic defaults of `DiagramFilters`: all nine tags `True`. -/
def DiagramFilters.default : DiagramFilters :=
  ⟨true, true, true, true, true, true, true, true, true⟩

/-- Embedding of pydantic `model_dump` for `DiagramFilters`: the dictionary
of the nine fields in declaration order. -/
def DiagramFilters.model_dump (d : DiagramFilters) : List (String × Bool) :=
  [("api", d.api), ("orchestrator", d.orchestrator), ("agents", d.agents),
   ("retrieval", d.retrieval), ("tools", d.tools), ("data", d.data),
   ("governance", d.governance), ("obs", d.obs), ("ds", d.ds)]

/-- Embedding of the `DiagramRequest` model (utils/api.py lines 56-59). -/
structure DiagramRequest where
  diagram_type : String
  filters : Option DiagramFilters
  preset : Option String

/-- The success payload of the `generate_diagram` endpoint
(utils/api.py lines 139-143). -/
structure DiagramResponse where
  diagram_type : String
  filters : List (String × Bool)
  mermaid_code : String
deriving DecidableEq

/-- The filter-resolution step of `generate_diagram`
(utils/api.py lines 116-122).  The Python test is
`if request.preset and request.preset in PRESETS`; `request.preset` is
truthy exactly when it is a non-`None`, non-empty string, and membership is
a lookup in `PRESETS`.  When the test fails the code falls back to
`request.filters` (truthy iff not `None`, since a pydantic model instance
is always truthy) and finally to the `all_on` preset. -/
def resolved_filters (request : DiagramRequest) : List (String × Bool) :=
  match request.preset with
  | some p =>
    if !p.isEmpty && (PRESETS.lookup p).isSome then (PRESETS.lookup p).getD []
    else
      match request.filters with
      | some f => f.model_dump
      | none => (PRESETS.lookup "all_on").getD []
  | none =>
    match request.filters with
    | some f => f.model_dump
    | none => (PRESETS.lookup "all_on").getD []

/-- Embedding of the `generate_diagram` endpoint (utils/api.py
lines 107-143): resolve the filters, then dispatch on `diagram_type`; an
unknown type raises `HTTPException(400, ...)`, modelled as the `error`
branch carrying the status code and detail message. -/
def generate_diagram (request : DiagramRequest) : Except (Nat × String) DiagramResponse :=
  let filters := resolved_filters request
  if request.diagram_type = "architecture" then
    .ok ⟨request.diagram_type, filters, build_architecture_diagram filters⟩
  else if request.diagram_type = "agent" then
    .ok ⟨request.diagram_type, filters, build_agent_diagram filters⟩
  else if request.diagram_type = "ds" then
    .ok ⟨request.diagram_type, filters, build_ds_diagram filters⟩
  else if request.diagram_type = "complete" then
    .ok ⟨request.diagram_type, filters, COMPLETE_DIAGRAM⟩
  else
    .error (400, "Invalid diagram_type: " ++ request.diagram_type ++ ". Use: architecture, agent, ds, complete")

/-! ### utils/database.py -/

/-- A row of the `custom_diagrams` table (utils/database.py lines 36-49).
The `filters` column stores the JSON-serialised filter dictionary (or SQL
`NULL`), modelled as the serialised string.  The `created_at`/`updated_at`
columns are filled in by the database engine and referenced by no claim,
so they are omitted from the row model. -/
structure DiagramRow where
  id : Nat
  name : String
  description : String
  diagram_type : String
  mermaid_code : String
  filters : Option String
  is_public : Bool
  user_id : Option String
deriving DecidableEq

/-- The `custom_diagrams` table: its rows plus the `AUTOINCREMENT` counter
(the id the next `INSERT` receives; SQLite reports it as `lastrowid`). -/
structure Db where
  rows : List DiagramRow
  next_id : Nat
deriving DecidableEq

/-- Well-formedness of the autoincrement table: every existing row id is
below the counter, which SQLite's `AUTOINCREMENT` guarantees. -/
def DbWF (db : Db) : Prop := ∀ r ∈ db.rows, r.id < db.next_id

namespace DiagramRepository

/-- Embedding of `DiagramRepository.create` (utils/database.py
lines 96-124): insert the row and return `lastrowid` with the new table
state.  Argument order follows the Python signature
`(name, mermaid_code, diagram_type, description, filters, is_public,
user_id)`. -/
def create (db : Db) (name mermaid_code diagram_type description : String)
    (filters : Option String) (is_public : Bool) (user_id : Option String) : Nat × Db :=
  (db.next_id,
   { rows := db.rows ++
       [{ id := db.next_id, name := name, description := description,
          diagram_type := diagram_type, mermaid_code := mermaid_code,
          filters := filters, is_public := is_public, user_id := user_id }],
     next_id := db.next_id + 1 })

/-- Embedding of `DiagramRepository.get_by_id` (utils/database.py
lines 126-138): `SELECT * FROM custom_diagrams WHERE id = ?` with
`fetchone`, i.e. the first row with the given id, or `None`. -/
def get_by_id (db : Db) (diagram_id : Nat) : Option DiagramRow :=
  db.rows.find? (fun r => r.id == diagram_id)

/-- Embedding of `DiagramRepository.update` (utils/database.py
lines 164-206): collect the supplied fields; with none supplied return
`False` before touching the table; otherwise overwrite those fields on
every row with the given id and report `rowcount > 0`. -/
def update (db : Db) (diagram_id : Nat) (name description mermaid_code : Option String)
    (filters : Option String) (is_public : Option Bool) : Bool × Db :=
  let has_updates := name.isSome || description.isSome || mermaid_code.isSome
    || filters.isSome || is_public.isSome
  if !has_updates then (false, db)
  else
    (db.rows.any (fun r => r.id == diagram_id),
     { db with rows := db.rows.map (fun r =>
         if r.id == diagram_id then
           { r with name := name.getD r.name,
                    description := description.getD r.description,
                    mermaid_code := mermaid_code.getD r.mermaid_code,
                    filters := match filters with | some v => some v | none => r.filters,
                    is_public := is_public.getD r.is_public }
         else r) })

/-- Embedding of `DiagramRepository.delete` (utils/database.py
lines 208-218): `DELETE FROM custom_diagrams WHERE id = ?` and report
`rowcount > 0`. -/
def delete (db : Db) (diagram_id : Nat) : Bool × Db :=
  (db.rows.any (fun r => r.id == diagram_id),
   { db with rows := db.rows.filter (fun r => !(r.id == diagram_id)) })

end DiagramRepository

/-! ### app.py session state -/

/-- Python dictionary assignment `d[key] = value` on a string-keyed
dictionary: overwrite the binding when the key exists, append it
otherwise. -/
def dict_set (d : List (String × Bool)) (key : String) (value : Bool) : List (String × Bool) :=
  if (d.lookup key).isSome then d.map (fun p => if p.1 = key then (key, value) else p)
  else d ++ [(key, value)]

/-- The mutable state the Streamlit front end touches: the module-level
`PRESETS` table of diagrams.py and the session's
`st.session_state.filters` dictionary. -/
structure AppState where
  presets : List (String × List (String × Bool))
  session_filters : List (String × Bool)

/-- Embedding of `init_session_state` (app.py lines 111-114) applied to a
fresh session: `st.session_state.filters = PRESETS["all_on"].copy()`.
The `.copy()` gives the session its own dictionary object, so the state
keeps the preset table and the session dictionary as separate
components. -/
def init_app_state : AppState :=
  { presets := PRESETS, session_filters := (PRESETS.lookup "all_on").getD [] }

/-- Embedding of `apply_preset` (app.py lines 117-119):
`st.session_state.filters = PRESETS[preset_name].copy()`.  Because of the
`.copy()` the session component is a fresh dictionary holding the
preset's values and the stored preset table is not aliased. -/
def apply_preset (s : AppState) (preset_name : String) : AppState :=
  { s with session_filters := (s.presets.lookup preset_name).getD [] }

/-- Embedding of one checkbox write of the sidebar loop (app.py
line 158): `st.session_state.filters[key] = st.checkbox(...)`, a key
assignment on the session's own dictionary. -/
def set_filter_checkbox (s : AppState) (key : String) (value : Bool) : AppState :=
  { s with session_filters := dict_set s.session_filters key value }

/-- A user session mutating its filter dictionary one checkbox write at a
time (app.py lines 157-162). -/
def mutate_session (s : AppState) (muts : List (String × Bool)) : AppState :=
  muts.foldl (fun s kv => set_filter_checkbox s kv.1 kv.2) s

/-! ### Analysis helpers (not part of the source embedding) -/

/-- Whether `pat` matches at the head of `cs`. -/
def lead_match : List Char → List Char → Bool
  | [], _ => true
  | _ :: _, [] => false
  | p :: ps, c :: cs => p == c && lead_match ps cs

/-- Whether `pat` occurs as a contiguous sub-sequence of `cs`. -/
def has_sub : List Char → List Char → Bool
  | pat, [] => pat.isEmpty
  | pat, c :: cs => lead_match pat (c :: cs) || has_sub pat cs

/-- Whether the string `pat` occurs inside the string `s`. -/
def contains_line (s pat : String) : Bool := has_sub pat.data s.data

/-- The cross-link rules of `build_architecture_diagram`
(diagrams.py lines 359-411), read off conditional by conditional: each
rule pairs the tags its guard tests with the literal link lines the guard
emits.  The observability and governance groups contribute one rule per
inner link, guarded by the group tag together with the link's other
endpoint tag. -/
def cross_link_rules : List (List String × List String) :=
  [(["api", "orchestrator"], ["API1 --> ROUTER"]),
   (["orchestrator", "agents"], ["ROUTER --> PLAN", "VALID --> ROUTER"]),
   (["agents", "retrieval"], ["SPEC --> EMB", "AUG --> SPEC"]),
   (["retrieval", "data"], ["VEC <--> VDB", "CHUNK --> POL"]),
   (["tools", "agents"], ["SPEC --> DBT", "SPEC --> FILE", "SPEC --> WEB", "VALID --> ACT"]),
   (["tools", "data"], ["DBT <--> DWH", "FILE <--> POL", "WEB --> POL", "ACT --> DWH"]),
   (["obs", "api"], ["API1 --> MET"]),
   (["obs", "orchestrator"], ["ROUTER --> TRC"]),
   (["obs", "agents"], ["VALID --> TRC"]),
   (["obs", "tools"], ["ACT --> TRC"]),
   (["obs", "data"], ["TRC --> LOGS"]),
   (["governance", "api"], ["API1 --> AUTH"]),
   (["governance", "agents"], ["SPEC --> PII", "SPEC --> INJ", "VALID --> PROV"]),
   (["ds", "agents"], ["PLAN --> DSREQ", "DSPIP --> SPEC", "DSPKG --> ACT"])]

/-- A rule fires when every tag it references is enabled. -/
def rule_enabled (filters : List (String × Bool)) (rule : List String × List String) : Bool :=
  rule.1.all (fget filters)

/-- Concatenation of a list of strings, in order. -/
def str_concat : List String → String
  | [] => ""
  | s :: rest => s ++ str_concat rest

/-- The text a firing rule contributes: its link lines, each newline
terminated. -/
def rule_text (rule : List String × List String) : String :=
  str_concat (rule.2.map (fun l => l ++ "\n"))

/-- The cross-link lines emitted for a configuration: the lines of the
firing rules, in rule order. -/
def enabled_link_lines (filters : List (String × Bool)) : List String :=
  ((cross_link_rules.filter (rule_enabled filters)).map Prod.snd).flatten

/-! ### Helper lemmas -/

set_option maxHeartbeats 2000000 in
set_option maxRecDepth 10000 in
/-- Case bash over the nine tag booleans: the cross-link section written as
the source writes it equals the rule-by-rule concatenation. -/
theorem cross_links_core (a o ag rt tl dt gv ob dsb : Bool) :
    (if a && o then "API1 --> ROUTER\n" else "")
    ++ (if o && ag then "ROUTER --> PLAN\nVALID --> ROUTER\n" else "")
    ++ (if ag && rt then "SPEC --> EMB\nAUG --> SPEC\n" else "")
    ++ (if rt && dt then "VEC <--> VDB\nCHUNK --> POL\n" else "")
    ++ (if tl && ag then "SPEC --> DBT\nSPEC --> FILE\nSPEC --> WEB\nVALID --> ACT\n" else "")
    ++ (if tl && dt then "DBT <--> DWH\nFILE <--> POL\nWEB --> POL\nACT --> DWH\n" else "")
    ++ (if ob then
          let obs_links :=
            (if a then ["API1 --> MET"] else [])
            ++ (if o then ["ROUTER --> TRC"] else [])
            ++ (if ag then ["VALID --> TRC"] else [])
            ++ (if tl then ["ACT --> TRC"] else [])
            ++ (if dt then ["TRC --> LOGS"] else [])
          if obs_links.isEmpty then "" else String.intercalate "\n" obs_links ++ "\n"
        else "")
    ++ (if gv then
          let gov_links :=
            (if a then ["API1 --> AUTH"] else [])
            ++ (if ag then ["SPEC --> PII", "SPEC --> INJ", "VALID --> PROV"] else [])
          if gov_links.isEmpty then "" else String.intercalate "\n" gov_links ++ "\n"
        else "")
    ++ (if dsb && ag then "PLAN --> DSREQ\nDSPIP --> SPEC\nDSPKG --> ACT\n" else "")
    =
    str_concat
      [(if a && o then str_concat (["API1 --> ROUTER"].map (fun l => l ++ "\n")) else ""),
       (if o && ag then str_concat (["ROUTER --> PLAN", "VALID --> ROUTER"].map (fun l => l ++ "\n")) else ""),
       (if ag && rt then str_concat (["SPEC --> EMB", "AUG --> SPEC"].map (fun l => l ++ "\n")) else ""),
       (if rt && dt then str_concat (["VEC <--> VDB", "CHUNK --> POL"].map (fun l => l ++ "\n")) else ""),
       (if tl && ag then str_concat (["SPEC --> DBT", "SPEC --> FILE", "SPEC --> WEB", "VALID --> ACT"].map (fun l => l ++ "\n")) else ""),
       (if tl && dt then str_concat (["DBT <--> DWH", "FILE <--> POL", "WEB --> POL", "ACT --> DWH"].map (fun l => l ++ "\n")) else ""),
       (if ob && a then str_concat (["API1 --> MET"].map (fun l => l ++ "\n")) else ""),
       (if ob && o then str_concat (["ROUTER --> TRC"].map (fun l => l ++ "\n")) else ""),
       (if ob && ag then str_concat (["VALID --> TRC"].map (fun l => l ++ "\n")) else ""),
       (if ob && tl then str_concat (["ACT --> TRC"].map (fun l => l ++ "\n")) else ""),
       (if ob && dt then str_concat (["TRC --> LOGS"].map (fun l => l ++ "\n")) else ""),
       (if gv && a then str_concat (["API1 --> AUTH"].map (fun l => l ++ "\n")) else ""),
       (if gv && ag then str_concat (["SPEC --> PII", "SPEC --> INJ", "VALID --> PROV"].map (fun l => l ++ "\n")) else ""),
       (if dsb && ag then str_concat (["PLAN --> DSREQ", "DSPIP --> SPEC", "DSPKG --> ACT"].map (fun l => l ++ "\n")) else "")] := by
  cases a <;> cases o <;> cases ag <;> cases rt <;> cases tl <;>
    cases dt <;> cases gv <;> cases ob <;> cases dsb <;> rfl

/-- The cross-link section of the builder equals the rule-based
rendering: each rule contributes its lines exactly when all of its tags
are enabled. -/
theorem arch_cross_links_eq (filters : List (String × Bool)) :
    arch_cross_links filters =
      str_concat (cross_link_rules.map
        (fun r => if rule_enabled filters r then rule_text r else "")) := by
  have h := cross_links_core (fget filters "api") (fget filters "orchestrator")
    (fget filters "agents") (fget filters "retrieval") (fget filters "tools")
    (fget filters "data") (fget filters "governance") (fget filters "obs")
    (fget filters "ds")
  simpa only [arch_cross_links, cross_link_rules, rule_enabled, rule_text,
    List.map_cons, List.map_nil, List.all_cons, List.all_nil, Bool.and_true] using h

/-- Folding string-appends of the selected blocks equals appending the
concatenation of the filtered selection. -/
theorem foldl_filter_concat (B : String → String) (p : String → Bool) :
    ∀ (l : List String) (init : String),
      l.foldl (fun d tag => if p tag then d ++ B tag else d) init
        = init ++ str_concat ((l.filter p).map B)
  | [], init => by simp [str_concat, String.append_empty]
  | hd :: tl, init => by
    cases h : p hd with
    | false =>
      simp only [List.foldl_cons, h, List.filter_cons, Bool.false_eq_true, if_false,
        cond_false]
      exact foldl_filter_concat B p tl init
    | true =>
      simp only [List.foldl_cons, h, List.filter_cons, if_true, cond_true, List.map_cons,
        str_concat]
      rw [foldl_filter_concat B p tl (init ++ B hd), String.append_assoc]

/-- The enabled fragments of the architecture diagram, concatenated in
`block_order`. -/
theorem arch_fragments_eq (filters : List (String × Bool)) :
    arch_fragments filters
      = str_concat ((block_order.filter (fun t => fget filters t)).map ARCH_BLOCKS) := by
  rw [arch_fragments]
  have h := foldl_filter_concat ARCH_BLOCKS (fun t => fget filters t) block_order ""
  simpa [String.empty_append] using h

/-- The architecture builder reads the configuration only through the nine
tags of `block_order`. -/
theorem build_arch_congr (f g : List (String × Bool))
    (h : ∀ t ∈ block_order, fget f t = fget g t) :
    build_architecture_diagram f = build_architecture_diagram g := by
  have h1 := h "api" (by simp [block_order])
  have h2 := h "orchestrator" (by simp [block_order])
  have h3 := h "agents" (by simp [block_order])
  have h4 := h "retrieval" (by simp [block_order])
  have h5 := h "tools" (by simp [block_order])
  have h6 := h "data" (by simp [block_order])
  have h7 := h "governance" (by simp [block_order])
  have h8 := h "obs" (by simp [block_order])
  have h9 := h "ds" (by simp [block_order])
  simp only [build_architecture_diagram, arch_fragments, arch_cross_links, block_order,
    List.foldl_cons, List.foldl_nil, h1, h2, h3, h4, h5, h6, h7, h8, h9]

/-- The agent builder reads the configuration only through the `agents`
tag. -/
theorem build_agent_congr (f g : List (String × Bool))
    (h : fget f "agents" = fget g "agents") :
    build_agent_diagram f = build_agent_diagram g := by
  simp only [build_agent_diagram, h]

/-- The DS builder reads the configuration only through the `ds` and
`governance` tags. -/
theorem build_ds_congr (f g : List (String × Bool))
    (h1 : fget f "ds" = fget g "ds") (h2 : fget f "governance" = fget g "governance") :
    build_ds_diagram f = build_ds_diagram g := by
  simp only [build_ds_diagram, h1, h2]

/-- Appending an explicit `false` binding for an absent key leaves every
lookup default unchanged. -/
theorem fget_append_false (f : List (String × Bool)) (tag : String)
    (h : f.lookup tag = none) (t : String) :
    fget (f ++ [(tag, false)]) t = fget f t := by
  induction f with
  | nil =>
    simp only [List.nil_append, fget, List.lookup]
    cases htag : t == tag <;> simp
  | cons head rest ih =>
    obtain ⟨k, v⟩ := head
    simp only [List.lookup, List.cons_append] at h ⊢
    cases hk : tag == k with
    | true => simp [hk] at h
    | false =>
      simp only [hk] at h
      cases htk : t == k with
      | true => simp only [fget, List.lookup, htk]
      | false =>
        simp only [fget, List.lookup, htk] at ih ⊢
        exact ih h

/-- `find?` skips a prefix on which the predicate fails everywhere. -/
theorem find?_append_right {α : Type} (p : α → Bool) (l1 l2 : List α)
    (h : ∀ x ∈ l1, p x = false) :
    (l1 ++ l2).find? p = l2.find? p := by
  induction l1 with
  | nil => rfl
  | cons a l ih =>
    rw [List.cons_append, List.find?_cons_of_neg _ (by simp [h a (by simp)])]
    exact ih (fun x hx => h x (by simp [hx]))

/-- Checkbox writes touch only the session dictionary, never the preset
table. -/
theorem mutate_session_presets (muts : List (String × Bool)) :
    ∀ s : AppState, (mutate_session s muts).presets = s.presets := by
  induction muts with
  | nil => intro s; rfl
  | cons kv rest ih =>
    intro s
    exact ih (set_filter_checkbox s kv.1 kv.2)

/-! ### Claims -/

/-- C1, counterexample: the builders do not treat an omitted tag as
enabled.  With `agents` omitted `build_agent_diagram` returns the
placeholder, while with `agents` explicitly `true` it returns the agent
state diagram, so omission is not equivalent to an explicit `true`. -/
theorem c1_omitted_is_not_enabled_cx :
    build_agent_diagram [] ≠ build_agent_diagram [("agents", true)] := by decide

/-- C1, amended: the three assembly functions treat a tag absent from the
configuration exactly as if it were explicitly set to `false` (not `true`):
`filters.get(tag, False)` defaults to disabled.  (The default-`true`
omission semantics lives one layer up, in the pydantic request model
`DiagramFilters`, whose omitted fields default to `true`.) -/
theorem c1_omitted_tag_defaults_false (f : List (String × Bool)) (tag : String)
    (h : f.lookup tag = none) :
    build_architecture_diagram f = build_architecture_diagram (f ++ [(tag, false)])
    ∧ build_agent_diagram f = build_agent_diagram (f ++ [(tag, false)])
    ∧ build_ds_diagram f = build_ds_diagram (f ++ [(tag, false)]) := by
  have hf : ∀ t, fget (f ++ [(tag, false)]) t = fget f t := fget_append_false f tag h
  exact ⟨build_arch_congr _ _ (fun t _ => (hf t).symm),
         build_agent_congr _ _ (hf "agents").symm,
         build_ds_congr _ _ (hf "ds").symm (hf "governance").symm⟩

/-- C1, witness for the amended theorem at a concrete configuration with
the `agents` key absent. -/
theorem c1_omitted_tag_defaults_false_witness :
    build_architecture_diagram [("api", true)]
        = build_architecture_diagram [("api", true), ("agents", false)]
    ∧ build_agent_diagram [("api", true)]
        = build_agent_diagram [("api", true), ("agents", false)]
    ∧ build_ds_diagram [("api", true)]
        = build_ds_diagram [("api", true), ("agents", false)] :=
  c1_omitted_tag_defaults_false [("api", true)] "agents" (by decide)

set_option maxRecDepth 10000 in
/-- C2: a cross-link line is present among the emitted cross-link lines iff
every tag of its rule is enabled.  The first conjunct renders the
cross-link section rule by rule; the second is the per-line iff; the last
two conjuncts check the spec's example: with `orchestrator` enabled but
`agents` disabled the `ROUTER --> PLAN` line is absent from the full
output, while with everything enabled it is present. -/
theorem c2_cross_link_iff :
    (∀ f : List (String × Bool),
        arch_cross_links f =
          str_concat (cross_link_rules.map
            (fun r => if rule_enabled f r then rule_text r else "")))
    ∧ (∀ (f : List (String × Bool)) (rule : List String × List String),
        rule ∈ cross_link_rules → ∀ l ∈ rule.2,
          (l ∈ enabled_link_lines f ↔ rule_enabled f rule = true))
    ∧ contains_line (build_architecture_diagram
        [("api", true), ("orchestrator", true), ("agents", false), ("retrieval", true),
         ("tools", true), ("data", true), ("governance", true), ("obs", true), ("ds", true)])
        "ROUTER --> PLAN" = false
    ∧ contains_line (build_architecture_diagram ((PRESETS.lookup "all_on").getD []))
        "ROUTER --> PLAN" = true := by
  have hdist : ∀ r1 ∈ cross_link_rules, ∀ r2 ∈ cross_link_rules,
      ∀ s : String, s ∈ r1.2 → s ∈ r2.2 → r1 = r2 := by decide
  refine ⟨arch_cross_links_eq, ?_, by decide, by decide⟩
  intro f rule hr l hl
  constructor
  · intro hmem
    obtain ⟨L, hL, hlL⟩ := List.mem_flatten.1 hmem
    obtain ⟨r2, hr2, hLr⟩ := List.mem_map.1 hL
    obtain ⟨hr2mem, hr2en⟩ := List.mem_filter.1 hr2
    have hrr : rule = r2 := hdist rule hr r2 hr2mem l hl (by rw [hLr]; exact hlL)
    rw [hrr]
    exact hr2en
  · intro hen
    exact List.mem_flatten.2 ⟨rule.2,
      List.mem_map_of_mem Prod.snd (List.mem_filter.2 ⟨hr, hen⟩), hl⟩

/-- C2, witness: the router-to-planner line is among the emitted lines for
the all-enabled preset. -/
theorem c2_cross_link_iff_witness :
    "ROUTER --> PLAN" ∈ enabled_link_lines ((PRESETS.lookup "all_on").getD []) :=
  (c2_cross_link_iff.2.1 ((PRESETS.lookup "all_on").getD [])
      (["orchestrator", "agents"], ["ROUTER --> PLAN", "VALID --> ROUTER"])
      (by decide) "ROUTER --> PLAN" (by decide)).2 (by decide)

set_option maxRecDepth 10000 in
/-- C3, counterexample: with zero tags enabled the architecture builder
does not return exactly the fixed header text; it appends the fixed
cross-links comment as well. -/
theorem c3_all_off_not_header_cx :
    build_architecture_diagram ((PRESETS.lookup "all_off").getD []) ≠ arch_header := by
  decide

/-- C3, amended: with zero tags enabled the architecture builder returns
exactly the fixed header text followed by the fixed cross-links comment,
with no template fragments and no cross-link lines. -/
theorem c3_all_off_header_and_comment (f : List (String × Bool))
    (h : ∀ t ∈ block_order, fget f t = false) :
    build_architecture_diagram f = arch_header ++ cross_links_header := by
  have h1 := h "api" (by simp [block_order])
  have h2 := h "orchestrator" (by simp [block_order])
  have h3 := h "agents" (by simp [block_order])
  have h4 := h "retrieval" (by simp [block_order])
  have h5 := h "tools" (by simp [block_order])
  have h6 := h "data" (by simp [block_order])
  have h7 := h "governance" (by simp [block_order])
  have h8 := h "obs" (by simp [block_order])
  have h9 := h "ds" (by simp [block_order])
  simp only [build_architecture_diagram, arch_fragments, arch_cross_links, block_order,
    List.foldl_cons, List.foldl_nil, h1, h2, h3, h4, h5, h6, h7, h8, h9]
  rfl

/-- C3, witness for the amended theorem at the all-off preset. -/
theorem c3_all_off_header_and_comment_witness :
    build_architecture_diagram ((PRESETS.lookup "all_off").getD [])
      = arch_header ++ cross_links_header :=
  c3_all_off_header_and_comment _ (by decide)

/-- C4, counterexample: a request naming a preset outside the fixed set
does not fail with a client error; `generate_diagram` silently ignores the
invalid name (behaving as if no preset were given) and succeeds. -/
theorem c4_unknown_preset_ok_cx :
    generate_diagram ⟨"architecture", none, some "not_a_real_preset"⟩
        = generate_diagram ⟨"architecture", none, none⟩
    ∧ (generate_diagram ⟨"architecture", none, some "not_a_real_preset"⟩).isOk = true :=
  ⟨rfl, rfl⟩

/-- C4, amended: an invalid (unknown or empty) preset name is silently
ignored: the request behaves exactly as the same request with no preset,
falling back to the explicit filters if present and otherwise to the
all-enabled preset.  Only an invalid `diagram_type` produces a 400
error. -/
theorem c4_unknown_preset_ignored (req : DiagramRequest) (p : String)
    (hp : req.preset = some p)
    (hbad : (p.isEmpty || (PRESETS.lookup p).isNone) = true) :
    generate_diagram req = generate_diagram { req with preset := none } := by
  have hc : (!p.isEmpty && (PRESETS.lookup p).isSome) = false := by
    cases hpe : p.isEmpty <;> cases hlk : PRESETS.lookup p <;> simp_all
  obtain ⟨dt, fl, pr⟩ := req
  simp only at hp
  subst hp
  have hfilters : resolved_filters ⟨dt, fl, some p⟩ = resolved_filters ⟨dt, fl, none⟩ := by
    simp [resolved_filters, hc]
  simp only [generate_diagram, hfilters]

/-- C4, witness for the amended theorem at a concrete unknown preset
name. -/
theorem c4_unknown_preset_ignored_witness :
    generate_diagram ⟨"agent", none, some "bogus"⟩ = generate_diagram ⟨"agent", none, none⟩ :=
  c4_unknown_preset_ignored ⟨"agent", none, some "bogus"⟩ "bogus" rfl (by decide)

/-- C5: the fragments in the architecture output occur exactly in the
canonical tag order: the output decomposes as header, then the blocks of
the enabled tags in `block_order`, then the cross-link section; the
enabled-tag sequence is a sublist of the canonical order; and the output
depends only on the values the configuration gives the nine tags, not on
any ordering of its keys. -/
theorem c5_fragments_canonical_order (f : List (String × Bool)) :
    build_architecture_diagram f
        = arch_header
          ++ str_concat ((block_order.filter (fun t => fget f t)).map ARCH_BLOCKS)
          ++ cross_links_header ++ arch_cross_links f
    ∧ List.Sublist (block_order.filter (fun t => fget f t)) block_order
    ∧ ∀ g : List (String × Bool),
        (∀ t ∈ block_order, fget f t = fget g t) →
        build_architecture_diagram f = build_architecture_diagram g := by
  refine ⟨?_, List.filter_sublist _, build_arch_congr f⟩
  rw [build_architecture_diagram, arch_fragments_eq]

/-- C5, witness: instantiating the key-order-independence conjunct at two
concrete configurations that agree on every tag. -/
theorem c5_fragments_canonical_order_witness :
    build_architecture_diagram [("api", true)]
      = build_architecture_diagram [("zz", false), ("api", true)] :=
  (c5_fragments_canonical_order [("api", true)]).2.2 [("zz", false), ("api", true)] (by decide)

/-- C6: the DS builder returns the main pipeline text joined with the
governance overlay when both `ds` and `governance` are enabled, the main
pipeline text alone when `ds` is enabled and `governance` disabled, and
the fixed placeholder whenever `ds` is disabled, whatever `governance`
is. -/
theorem c6_ds_diagram_cases (f : List (String × Bool)) :
    (fget f "ds" = true → fget f "governance" = true →
        build_ds_diagram f = DS_BLOCKS "main" ++ "\n" ++ DS_BLOCKS "governance_overlay")
    ∧ (fget f "ds" = true → fget f "governance" = false →
        build_ds_diagram f = DS_BLOCKS "main")
    ∧ (fget f "ds" = false → build_ds_diagram f = ds_placeholder) :=
  ⟨fun h1 h2 => by simp [build_ds_diagram, h1, h2],
   fun h1 h2 => by simp [build_ds_diagram, h1, h2],
   fun h1 => by simp [build_ds_diagram, h1]⟩

/-- C6, witness covering the three branches at concrete
configurations. -/
theorem c6_ds_diagram_cases_witness :
    build_ds_diagram [("ds", true), ("governance", true)]
        = DS_BLOCKS "main" ++ "\n" ++ DS_BLOCKS "governance_overlay"
    ∧ build_ds_diagram [("ds", true)] = DS_BLOCKS "main"
    ∧ build_ds_diagram [("governance", true)] = ds_placeholder :=
  ⟨(c6_ds_diagram_cases _).1 (by decide) (by decide),
   (c6_ds_diagram_cases _).2.1 (by decide) (by decide),
   (c6_ds_diagram_cases _).2.2 (by decide)⟩

/-- C7: presets are copy-on-read.  Applying a named preset copies it into
the session dictionary, and any sequence of checkbox mutations of that
copy leaves the stored preset table unchanged, so applying the same preset
again yields the original stored values. -/
theorem c7_presets_copy_on_read (name : String) (muts : List (String × Bool))
    (h : (PRESETS.lookup name).isSome = true) :
    (mutate_session (apply_preset init_app_state name) muts).presets = PRESETS
    ∧ ∃ orig, PRESETS.lookup name = some orig
        ∧ (apply_preset (mutate_session (apply_preset init_app_state name) muts)
            name).session_filters = orig := by
  obtain ⟨orig, horig⟩ := Option.isSome_iff_exists.mp h
  have hp : (mutate_session (apply_preset init_app_state name) muts).presets = PRESETS := by
    rw [mutate_session_presets]
    rfl
  refine ⟨hp, orig, horig, ?_⟩
  show ((mutate_session (apply_preset init_app_state name) muts).presets.lookup name).getD [] = orig
  rw [hp, horig]
  rfl

/-- C7, witness: mutating the session copy of the `all_on` preset and
re-reading the stored preset. -/
theorem c7_presets_copy_on_read_witness :
    (mutate_session (apply_preset init_app_state "all_on") [("agents", false)]).presets = PRESETS
    ∧ ∃ orig, PRESETS.lookup "all_on" = some orig
        ∧ (apply_preset (mutate_session (apply_preset init_app_state "all_on") [("agents", false)])
            "all_on").session_filters = orig :=
  c7_presets_copy_on_read "all_on" [("agents", false)] (by decide)

/-- C8: updating a saved diagram with no fields supplied returns `False`
and leaves the table exactly as it was: the early `return False` fires
before any write. -/
theorem c8_update_no_fields_noop (db : Db) (diagram_id : Nat) :
    DiagramRepository.update db diagram_id none none none none none = (false, db) := rfl

/-- C9: create followed by get on the returned id yields the submitted
record (in particular its diagram text, name and public flag), and delete
on that id succeeds and makes a subsequent get report not-found. -/
theorem c9_create_get_delete_roundtrip (db : Db)
    (name mermaid_code diagram_type description : String) (filters : Option String)
    (is_public : Bool) (user_id : Option String) (hwf : DbWF db) :
    DiagramRepository.get_by_id
        (DiagramRepository.create db name mermaid_code diagram_type description filters
          is_public user_id).2
        (DiagramRepository.create db name mermaid_code diagram_type description filters
          is_public user_id).1
      = some { id := db.next_id, name := name, description := description,
               diagram_type := diagram_type, mermaid_code := mermaid_code,
               filters := filters, is_public := is_public, user_id := user_id }
    ∧ (DiagramRepository.delete
        (DiagramRepository.create db name mermaid_code diagram_type description filters
          is_public user_id).2
        (DiagramRepository.create db name mermaid_code diagram_type description filters
          is_public user_id).1).1 = true
    ∧ DiagramRepository.get_by_id
        (DiagramRepository.delete
          (DiagramRepository.create db name mermaid_code diagram_type description filters
            is_public user_id).2
          (DiagramRepository.create db name mermaid_code diagram_type description filters
            is_public user_id).1).2
        (DiagramRepository.create db name mermaid_code diagram_type description filters
          is_public user_id).1 = none := by
  have hne : ∀ r ∈ db.rows, ((fun r : DiagramRow => r.id == db.next_id) r) = false := by
    intro r hr
    simp only [beq_eq_false_iff_ne, ne_eq]
    exact Nat.ne_of_lt (hwf r hr)
  refine ⟨?_, ?_, ?_⟩
  · simp only [DiagramRepository.create, DiagramRepository.get_by_id]
    rw [find?_append_right _ _ _ hne]
    simp
  · simp only [DiagramRepository.create, DiagramRepository.delete]
    simp
  · simp only [DiagramRepository.create, DiagramRepository.delete, DiagramRepository.get_by_id]
    apply List.find?_eq_none.2
    intro x hx
    have hmem := List.mem_filter.1 hx
    have hfalse : (x.id == db.next_id) = false := by
      have h2 := hmem.2
      cases hxe : x.id == db.next_id
      · rfl
      · rw [hxe] at h2; simp at h2
    simp [hfalse]

/-- C9, witness: the round-trip on the empty table. -/
theorem c9_create_get_delete_roundtrip_witness :
    DiagramRepository.get_by_id
        (DiagramRepository.create ⟨[], 1⟩ "demo" "graph TD" "flowchart" "" none true none).2
        (DiagramRepository.create ⟨[], 1⟩ "demo" "graph TD" "flowchart" "" none true none).1
      = some { id := 1, name := "demo", description := "", diagram_type := "flowchart",
               mermaid_code := "graph TD", filters := none, is_public := true, user_id := none }
    ∧ (DiagramRepository.delete
        (DiagramRepository.create ⟨[], 1⟩ "demo" "graph TD" "flowchart" "" none true none).2
        (DiagramRepository.create ⟨[], 1⟩ "demo" "graph TD" "flowchart" "" none true none).1).1
        = true
    ∧ DiagramRepository.get_by_id
        (DiagramRepository.delete
          (DiagramRepository.create ⟨[], 1⟩ "demo" "graph TD" "flowchart" "" none true none).2
          (DiagramRepository.create ⟨[], 1⟩ "demo" "graph TD" "flowchart" "" none true none).1).2
        (DiagramRepository.create ⟨[], 1⟩ "demo" "graph TD" "flowchart" "" none true none).1
        = none :=
  c9_create_get_delete_roundtrip ⟨[], 1⟩ "demo" "graph TD" "flowchart" "" none true none
    (by intro r hr; cases hr)

set_option maxRecDepth 10000 in
/-- C10: the stored complete reference diagram is not the text the
assembly engine produces for the all-enabled configuration; in particular
the assembled output contains the `WEB --> POL` link line and the
reference does not. -/
theorem c10_complete_differs_from_assembled :
    build_architecture_diagram ((PRESETS.lookup "all_on").getD []) ≠ COMPLETE_DIAGRAM
    ∧ contains_line (build_architecture_diagram ((PRESETS.lookup "all_on").getD []))
        "WEB --> POL" = true
    ∧ contains_line COMPLETE_DIAGRAM "WEB --> POL" = false :=
  ⟨by decide, by decide, by decide⟩

end DsaaAgents
